import Mathlib

/-!
Formal model of the Summit Cards backend (`src/server.js`), a small HTTP
proxy in front of the Pokemon TCG API, with proofs of its behavioural
properties: CORS origin gating, upstream URL construction, header
assembly, timeout handling, error normalisation, and the health endpoint.

Modelling conventions: JavaScript strings are Lean `String`s; an absent
`Origin` header or environment variable is `Option.none`; the outcome of
the outbound `fetch` call (response, transport failure, abort) is an
explicit `FetchOutcome` value passed to the model of `pokemonApiRequest`;
parsed JSON payloads are relayed verbatim and never inspected by the
proxy, so they are modelled as opaque strings.  Clock readings are
milliseconds since the Unix epoch, as returned by `new Date()`.
-/

/-- Parsed JSON payloads pass through the proxy unmodified and are never
inspected, so they are modelled opaquely. -/
abbrev Json := String

/-- Upstream base URL (`POKEMON_TCG_API`, server.js line 8). -/
def POKEMON_TCG_API : String := "https://api.pokemontcg.io/v2"

/-- Value of `const API_KEY = process.env.POKEMON_TCG_API_KEY || ''`
(server.js line 11).  JavaScript `||` yields the right operand on any
falsy left operand; an unset variable (`none`) and the empty string both
produce `''`. -/
def apiKeyOfEnv (env : Option String) : String :=
  match env with
  | none => ""
  | some s => if s = "" then "" else s

/-- Allow-list of frontend origins (`allowedOrigins`, server.js lines 14-21). -/
def allowedOrigins : List String :=
  ["https://collection.summitcards.co.uk",
   "https://summitcards.co.uk",
   "https://www.summitcards.co.uk",
   "http://localhost:5173",
   "http://localhost:3000",
   "http://127.0.0.1:5173"]

/-- CORS origin decision: the `origin` callback installed at server.js
lines 24-32, as a function of the allow-list in scope and the request's
`Origin` header (`none` when the header is absent).  The JavaScript guard
`if (!origin) return callback(null, true)` tests truthiness, so it also
allows a present-but-empty `Origin` value. -/
def corsOriginCallback (origins : List String) (origin : Option String) : Bool :=
  match origin with
  | none => true
  | some o => if o = "" then true else origins.contains o

/-- The origin gate with the static allow-list, as configured in `app.use(cors(...))`. -/
def corsOrigin (origin : Option String) : Bool :=
  corsOriginCallback allowedOrigins origin

instance (α β : Type) [DecidableEq α] [DecidableEq β] : DecidableEq (Except α β) := fun a b =>
  match a, b with
  | .ok x, .ok y => if h : x = y then isTrue (by rw [h]) else isFalse (by simp [h])
  | .error x, .error y => if h : x = y then isTrue (by rw [h]) else isFalse (by simp [h])
  | .ok _, .error _ => isFalse (by simp)
  | .error _, .ok _ => isFalse (by simp)

/-- Model of a `fetch` `Response`: transport status, reason phrase, the
text of the body, and the result of `response.json()` (`Except.error`
carries the message of the rejection raised on a body that is not valid
JSON). -/
structure FetchResponse where
  status : Nat
  statusText : String
  bodyText : String
  jsonResult : Except String Json
deriving DecidableEq

/-- Response.ok is true exactly for statuses in the range 200-299. -/
def FetchResponse.ok (r : FetchResponse) : Bool :=
  200 ≤ r.status && r.status ≤ 299

/-- Outcome of the `await fetch(...)` call: either a response, or a
rejection carrying the error's `name` and `message` (a transport failure,
or the abort triggered by the deadline timer, whose name is
`"AbortError"`). -/
inductive FetchOutcome where
  | response (r : FetchResponse)
  | failure (name message : String)
deriving DecidableEq

/-- Deadline of the timer armed at server.js line 74 (milliseconds). -/
def TIMEOUT_MS : Nat := 30000

/-- Semantics of `setTimeout(() => controller.abort(), 30000)` racing the
outbound call: if the upstream needs strictly more than `TIMEOUT_MS`
milliseconds, the controller aborts the in-flight call and `fetch`
rejects with an `AbortError`; otherwise the call's own outcome stands. -/
def fetchWithDeadline (upstreamMs : Nat) (outcome : FetchOutcome) : FetchOutcome :=
  if TIMEOUT_MS < upstreamMs then .failure "AbortError" "This operation was aborted"
  else outcome

/-- Message of the error thrown on an abort (server.js line 94). -/
def timeoutMessage : String :=
  "Request timeout - Pokemon TCG API took too long to respond"

/-- Message of the error thrown on a non-ok upstream status (server.js
line 87). -/
def upstreamErrorMessage (status : Nat) (statusText : String) : String :=
  "Pokemon TCG API error: " ++ toString status ++ " " ++ statusText

/-- Everything observable about one run of `pokemonApiRequest`: the URL it
fetched, the headers it attached, the delay of the deadline timer it
armed, the value returned or the message of the error raised, and whether
the deadline timer is still armed when the function is done. -/
structure ApiRequestTrace where
  url : String
  headers : List (String × String)
  timerDelayMs : Nat
  result : Except String Json
  timerArmedAtEnd : Bool
deriving DecidableEq

/-- Model of `pokemonApiRequest(endpoint, queryParams)` (server.js lines
60-98), parametrised by the configured `API_KEY` and by the outcome of
the `fetch` call.  Mirrors the source line by line:

* line 61: `url = POKEMON_TCG_API + endpoint + queryParams`;
* lines 64-71: base headers, plus `X-Api-Key` only when `API_KEY` is truthy;
* line 74: the 30-second abort timer is armed;
* line 82: on any settled `fetch`, the timer is cleared;
* lines 84-88: a non-ok status throws `Pokemon TCG API error: <status> <statusText>`,
  which the catch block re-throws after clearing the (already cleared) timer;
* line 90: `return response.json()` — a rejection of the JSON parse
  propagates to the caller without re-entering the catch block, but the
  timer was already cleared at line 82;
* lines 91-97: a rejected `fetch` clears the timer and maps an
  `AbortError` to the timeout error, re-throwing anything else. -/
def pokemonApiRequest (endpoint queryParams apiKey : String)
    (outcome : FetchOutcome) : ApiRequestTrace :=
  let url := POKEMON_TCG_API ++ endpoint ++ queryParams
  let baseHeaders := [("Content-Type", "application/json"), ("Accept", "application/json")]
  let headers := if apiKey = "" then baseHeaders else baseHeaders ++ [("X-Api-Key", apiKey)]
  let timerArmed := true
  match outcome with
  | .response r =>
    let timerArmed := !timerArmed
    if r.ok then
      { url := url, headers := headers, timerDelayMs := TIMEOUT_MS,
        result := r.jsonResult, timerArmedAtEnd := timerArmed }
    else
      { url := url, headers := headers, timerDelayMs := TIMEOUT_MS,
        result := .error (upstreamErrorMessage r.status r.statusText),
        timerArmedAtEnd := timerArmed }
  | .failure name message =>
    let timerArmed := !timerArmed
    if name = "AbortError" then
      { url := url, headers := headers, timerDelayMs := TIMEOUT_MS,
        result := .error timeoutMessage, timerArmedAtEnd := timerArmed }
    else
      { url := url, headers := headers, timerDelayMs := TIMEOUT_MS,
        result := .error message, timerArmedAtEnd := timerArmed }

/-- The part of an Express request the handlers read: `req.url` (path plus
raw query string) and `req.params.id` (the router-decoded path parameter,
empty on the collection routes). -/
structure Request where
  url : String
  paramId : String
deriving DecidableEq

/-- Body of a response sent by the proxy. -/
inductive ResponseBody where
  | payload (data : Json)
  | errorBody (error message : String)
  | healthBody (status timestamp : String)
deriving DecidableEq

/-- A response sent to the original caller. -/
structure HttpResponse where
  status : Nat
  body : ResponseBody
deriving DecidableEq

/-- One handler run: the upstream request it made and the response it sent. -/
structure HandlerTrace where
  call : ApiRequestTrace
  response : HttpResponse
deriving DecidableEq

/-- Model of
`req.url.includes('?') ? req.url.substring(req.url.indexOf('?')) : ''`
(server.js lines 103 and 126): the suffix of the URL from the first `?`
(inclusive), or the empty string when there is none. -/
def extractQuery (url : String) : String :=
  if url.data.contains '?' then String.mk (url.data.dropWhile (fun c => c != '?')) else ""

/-- Handler of `GET /api/sets` (server.js lines 101-110). -/
def getSetsHandler (req : Request) (apiKey : String) (outcome : FetchOutcome) : HandlerTrace :=
  let queryParams := extractQuery req.url
  let t := pokemonApiRequest "/sets" queryParams apiKey outcome
  match t.result with
  | .ok data => { call := t, response := { status := 200, body := .payload data } }
  | .error m =>
    { call := t, response := { status := 500, body := .errorBody "Failed to fetch sets" m } }

/-- Handler of `GET /api/sets/:id` (server.js lines 113-121): the id is
interpolated into the endpoint and no query string is passed. -/
def getSetByIdHandler (req : Request) (apiKey : String) (outcome : FetchOutcome) : HandlerTrace :=
  let t := pokemonApiRequest ("/sets/" ++ req.paramId) "" apiKey outcome
  match t.result with
  | .ok data => { call := t, response := { status := 200, body := .payload data } }
  | .error m =>
    { call := t, response := { status := 500, body := .errorBody "Failed to fetch set" m } }

/-- Handler of `GET /api/cards` (server.js lines 124-133). -/
def getCardsHandler (req : Request) (apiKey : String) (outcome : FetchOutcome) : HandlerTrace :=
  let queryParams := extractQuery req.url
  let t := pokemonApiRequest "/cards" queryParams apiKey outcome
  match t.result with
  | .ok data => { call := t, response := { status := 200, body := .payload data } }
  | .error m =>
    { call := t, response := { status := 500, body := .errorBody "Failed to fetch cards" m } }

/-- Handler of `GET /api/cards/:id` (server.js lines 136-144). -/
def getCardByIdHandler (req : Request) (apiKey : String) (outcome : FetchOutcome) : HandlerTrace :=
  let t := pokemonApiRequest ("/cards/" ++ req.paramId) "" apiKey outcome
  match t.result with
  | .ok data => { call := t, response := { status := 200, body := .payload data } }
  | .error m =>
    { call := t, response := { status := 500, body := .errorBody "Failed to fetch card" m } }

/-- Leap year test of the proleptic Gregorian calendar used by JavaScript
`Date`. -/
def isLeapYear (y : Nat) : Bool :=
  y % 4 == 0 && (y % 100 != 0 || y % 400 == 0)

/-- Number of days of year `y`. -/
def daysInYear (y : Nat) : Nat :=
  if isLeapYear y then 366 else 365

/-- Month lengths of a year, January first. -/
def monthLengths (leap : Bool) : List Nat :=
  [31, if leap then 29 else 28, 31, 30, 31, 30, 31, 31, 30, 31, 30, 31]

/-- Walk forward one year at a time from year `y`, consuming `d` days;
returns the year reached and the remaining day-of-year.  The fuel is only
there to make the recursion structural; `d + 1` units never run out
because each step consumes at least one day. -/
def yearWalkAux (fuel y d : Nat) : Nat × Nat :=
  match fuel with
  | 0 => (y, d)
  | fuel + 1 => if d < daysInYear y then (y, d) else yearWalkAux fuel (y + 1) (d - daysInYear y)

/-- Year and zero-based day-of-year of a count of days since 1970-01-01. -/
def civilFromDays (days : Nat) : Nat × Nat :=
  yearWalkAux (days + 1) 1970 days

/-- Walk along a list of month lengths consuming `d` days; returns the
zero-based month index reached and the remaining zero-based day-of-month. -/
def monthWalk : List Nat → Nat → Nat × Nat
  | [], d => (0, d)
  | len :: rest, d =>
    if d < len then (0, d)
    else
      let p := monthWalk rest (d - len)
      (p.1 + 1, p.2)

/-- Calendar fields of a timestamp in milliseconds since the Unix epoch
(month and day are one-based, as printed). -/
structure DateFields where
  year : Nat
  month : Nat
  day : Nat
  hour : Nat
  minute : Nat
  second : Nat
  millis : Nat
deriving DecidableEq

/-- Field decomposition of a millisecond timestamp, per the proleptic
Gregorian calendar at UTC (the decomposition `Date.prototype.toISOString`
prints). -/
def isoFields (t : Nat) : DateFields :=
  let days := t / 86400000
  let yd := civilFromDays days
  let md := monthWalk (monthLengths (isLeapYear yd.1)) yd.2
  { year := yd.1, month := md.1 + 1, day := md.2 + 1,
    hour := t / 3600000 % 24, minute := t / 60000 % 60,
    second := t / 1000 % 60, millis := t % 1000 }

/-- Least significant decimal digit of `n` as a character. -/
def decDigit (n : Nat) : Char :=
  match n % 10 with
  | 0 => '0' | 1 => '1' | 2 => '2' | 3 => '3' | 4 => '4'
  | 5 => '5' | 6 => '6' | 7 => '7' | 8 => '8' | _ => '9'

/-- The last `w` decimal digits of `n`, zero-padded to width `w` (the
fixed-width fields of an ISO timestamp). -/
def padDigits (w n : Nat) : List Char :=
  match w with
  | 0 => []
  | w + 1 => padDigits w (n / 10) ++ [decDigit n]

/-- Rendering of calendar fields in the fixed-width layout
`YYYY-MM-DDTHH:mm:ss.sssZ`. -/
def renderFields (f : DateFields) : List Char :=
  padDigits 4 f.year ++ '-' :: padDigits 2 f.month ++ '-' :: padDigits 2 f.day
    ++ 'T' :: padDigits 2 f.hour ++ ':' :: padDigits 2 f.minute ++ ':' :: padDigits 2 f.second
    ++ '.' :: padDigits 3 f.millis ++ ['Z']

/-- Character list of `Date.prototype.toISOString` for timestamps between
1970 and the year 9999: `YYYY-MM-DDTHH:mm:ss.sssZ`. -/
def isoChars (t : Nat) : List Char :=
  renderFields (isoFields t)

/-- Model of `new Date(t).toISOString()` for `t` from the epoch up to the
year 9999. -/
def toISOString (t : Nat) : String :=
  String.mk (isoChars t)

/-- Handler of `GET /health` (server.js lines 55-57), as a function of the
millisecond clock reading taken by `new Date()`. -/
def healthHandler (nowMs : Nat) : HttpResponse :=
  { status := 200, body := .healthBody "healthy" (toISOString nowMs) }

/-- The millisecond reading `new Date()` takes at an instant measured with
microsecond resolution: sub-millisecond time is truncated away. -/
def dateNowMs (microTime : Nat) : Nat :=
  microTime / 1000

/-- The `GET /health` response produced by a call at microsecond instant
`microTime`. -/
def healthResponseAtMicro (microTime : Nat) : HttpResponse :=
  healthHandler (dateNowMs microTime)

/-- The timestamp field of the `GET /health` response at microsecond
instant `microTime`. -/
def healthTimestampAtMicro (microTime : Nat) : String :=
  toISOString (dateNowMs microTime)

/-- Numeric value of a decimal digit character. -/
def digitVal (c : Char) : Nat := c.toNat - 48

/-- Value of a string of decimal digit characters, most significant first. -/
def decValue (l : List Char) : Nat :=
  l.foldl (fun acc c => acc * 10 + digitVal c) 0

/-- Days from 1970-01-01 to the first day of year `1970 + k`. -/
def daysToYearStartAux : Nat → Nat
  | 0 => 0
  | k + 1 => daysToYearStartAux k + daysInYear (1970 + k)

/-- Days from 1970-01-01 to the first day of year `y` (zero for years up
to 1970). -/
def daysToYearStart (y : Nat) : Nat :=
  daysToYearStartAux (y - 1970)

/-- Sum of the first `k` entries of a list of month lengths. -/
def sumFirst (l : List Nat) (k : Nat) : Nat :=
  (l.take k).sum

/-- Milliseconds since the Unix epoch of a tuple of calendar fields
(month and day one-based). -/
def fieldsToMs (f : DateFields) : Nat :=
  ((((daysToYearStart f.year + sumFirst (monthLengths (isLeapYear f.year)) (f.month - 1)
      + (f.day - 1)) * 24 + f.hour) * 60 + f.minute) * 60 + f.second) * 1000 + f.millis

/-- Parser for the timestamp format emitted by `toISOString`: accepts
exactly the strings `YYYY-MM-DDTHH:mm:ss.sssZ` that denote a real
instant of the proleptic Gregorian calendar between 1970 and 9999, and
returns its milliseconds since the Unix epoch. -/
def parseISO8601 (str : String) : Option Nat :=
  match str.data with
  | [y1, y2, y3, y4, c1, m1, m2, c2, d1, d2, c3, h1, h2, c4, i1, i2, c5, s1, s2, c6,
     f1, f2, f3, c7] =>
    if c1 = '-' ∧ c2 = '-' ∧ c3 = 'T' ∧ c4 = ':' ∧ c5 = ':' ∧ c6 = '.' ∧ c7 = 'Z'
        ∧ ([y1, y2, y3, y4, m1, m2, d1, d2, h1, h2, i1, i2, s1, s2, f1, f2, f3].all Char.isDigit)
    then
      let y := decValue [y1, y2, y3, y4]
      let mo := decValue [m1, m2]
      let d := decValue [d1, d2]
      let fields : DateFields :=
        { year := y, month := mo, day := d,
          hour := decValue [h1, h2], minute := decValue [i1, i2],
          second := decValue [s1, s2], millis := decValue [f1, f2, f3] }
      if 1970 ≤ y ∧ 1 ≤ mo ∧ mo ≤ 12 ∧ 1 ≤ d
          ∧ d ≤ (monthLengths (isLeapYear y)).getD (mo - 1) 0
          ∧ fields.hour ≤ 23 ∧ fields.minute ≤ 59 ∧ fields.second ≤ 59
      then some (fieldsToMs fields)
      else none
    else none
  | _ => none

/-- Millisecond bound under which the year of a timestamp is guaranteed to
stay below 10000 (8030 years of at least 365 days each). -/
def YEAR_LIMIT_MS : Nat := 2930950 * 86400000

/-! Helper lemmas about `pokemonApiRequest` and the route handlers. -/

theorem pokemonApiRequest_url (e q k : String) (o : FetchOutcome) :
    (pokemonApiRequest e q k o).url = POKEMON_TCG_API ++ e ++ q := by
  rcases o with r | ⟨n, m⟩ <;> simp only [pokemonApiRequest] <;> split <;> rfl

theorem pokemonApiRequest_headers (e q k : String) (o : FetchOutcome) :
    (pokemonApiRequest e q k o).headers =
      if k = "" then [("Content-Type", "application/json"), ("Accept", "application/json")]
      else [("Content-Type", "application/json"), ("Accept", "application/json"),
            ("X-Api-Key", k)] := by
  rcases o with r | ⟨n, m⟩ <;> simp only [pokemonApiRequest] <;> split <;> split <;> rfl

theorem pokemonApiRequest_timerDelay (e q k : String) (o : FetchOutcome) :
    (pokemonApiRequest e q k o).timerDelayMs = TIMEOUT_MS := by
  rcases o with r | ⟨n, m⟩ <;> simp only [pokemonApiRequest] <;> split <;> rfl

theorem pokemonApiRequest_result (e q k : String) (o : FetchOutcome) :
    (pokemonApiRequest e q k o).result =
      match o with
      | .response r =>
        if r.ok then r.jsonResult else .error (upstreamErrorMessage r.status r.statusText)
      | .failure name message =>
        if name = "AbortError" then .error timeoutMessage else .error message := by
  rcases o with r | ⟨n, m⟩ <;> simp only [pokemonApiRequest] <;> split <;> rfl

theorem pokemonApiRequest_result_congr (e q k e' q' k' : String) (o : FetchOutcome) :
    (pokemonApiRequest e q k o).result = (pokemonApiRequest e' q' k' o).result := by
  rw [pokemonApiRequest_result, pokemonApiRequest_result]

theorem getSetsHandler_call (req : Request) (k : String) (o : FetchOutcome) :
    (getSetsHandler req k o).call = pokemonApiRequest "/sets" (extractQuery req.url) k o := by
  unfold getSetsHandler
  rcases h : (pokemonApiRequest "/sets" (extractQuery req.url) k o).result with d | m <;> simp [h]

theorem getCardsHandler_call (req : Request) (k : String) (o : FetchOutcome) :
    (getCardsHandler req k o).call = pokemonApiRequest "/cards" (extractQuery req.url) k o := by
  unfold getCardsHandler
  rcases h : (pokemonApiRequest "/cards" (extractQuery req.url) k o).result with d | m <;> simp [h]

theorem getSetByIdHandler_call (req : Request) (k : String) (o : FetchOutcome) :
    (getSetByIdHandler req k o).call = pokemonApiRequest ("/sets/" ++ req.paramId) "" k o := by
  unfold getSetByIdHandler
  rcases h : (pokemonApiRequest ("/sets/" ++ req.paramId) "" k o).result with d | m <;> simp [h]

theorem getCardByIdHandler_call (req : Request) (k : String) (o : FetchOutcome) :
    (getCardByIdHandler req k o).call = pokemonApiRequest ("/cards/" ++ req.paramId) "" k o := by
  unfold getCardByIdHandler
  rcases h : (pokemonApiRequest ("/cards/" ++ req.paramId) "" k o).result with d | m <;> simp [h]

theorem getSetsHandler_response_error (req : Request) (k m : String) (o : FetchOutcome)
    (h : (pokemonApiRequest "/sets" (extractQuery req.url) k o).result = .error m) :
    (getSetsHandler req k o).response =
      { status := 500, body := .errorBody "Failed to fetch sets" m } := by
  unfold getSetsHandler
  simp only [h]

theorem getCardsHandler_response_error (req : Request) (k m : String) (o : FetchOutcome)
    (h : (pokemonApiRequest "/cards" (extractQuery req.url) k o).result = .error m) :
    (getCardsHandler req k o).response =
      { status := 500, body := .errorBody "Failed to fetch cards" m } := by
  unfold getCardsHandler
  simp only [h]

theorem getSetByIdHandler_response_error (req : Request) (k m : String) (o : FetchOutcome)
    (h : (pokemonApiRequest ("/sets/" ++ req.paramId) "" k o).result = .error m) :
    (getSetByIdHandler req k o).response =
      { status := 500, body := .errorBody "Failed to fetch set" m } := by
  unfold getSetByIdHandler
  simp only [h]

theorem getCardByIdHandler_response_error (req : Request) (k m : String) (o : FetchOutcome)
    (h : (pokemonApiRequest ("/cards/" ++ req.paramId) "" k o).result = .error m) :
    (getCardByIdHandler req k o).response =
      { status := 500, body := .errorBody "Failed to fetch card" m } := by
  unfold getCardByIdHandler
  simp only [h]

theorem dropWhile_neq_append {l m : List Char} (h : '?' ∉ l) :
    (l ++ m).dropWhile (fun c => c != '?') = m.dropWhile (fun c => c != '?') := by
  induction l with
  | nil => rfl
  | cons a t ih =>
    simp only [List.mem_cons, not_or] at h
    have ha : (a != '?') = true := by
      simp only [bne_iff_ne, ne_eq]
      exact fun he => h.1 he.symm
    simp [List.dropWhile_cons, ha, ih h.2]

theorem extractQuery_append (p q : String) (hp : '?' ∉ p.data)
    (hq : q.data = [] ∨ q.data.head? = some '?') :
    extractQuery (p ++ q) = q := by
  rcases hq with h0 | h1
  · have hq' : q = "" := by
      cases q with
      | mk l => simp only at h0; subst h0; rfl
    subst hq'
    unfold extractQuery
    have hc : ((p ++ "").data.contains '?') = false := by
      by_contra hcc
      simp only [Bool.not_eq_false] at hcc
      have := List.elem_iff.mp hcc
      rw [String.data_append] at this
      simp only [show ("" : String).data = [] from rfl, List.append_nil] at this
      exact hp this
    rw [hc]
    simp
  · rcases hd : q.data with _ | ⟨c, rest⟩
    · rw [hd] at h1; simp at h1
    · rw [hd] at h1
      simp only [List.head?_cons, Option.some.injEq] at h1
      subst h1
      unfold extractQuery
      have hc : ((p ++ q).data.contains '?') = true := by
        apply List.elem_iff.mpr
        rw [String.data_append, hd]
        exact List.mem_append_right _ (List.mem_cons_self _ _)
      rw [hc]
      simp only [if_true, String.data_append, dropWhile_neq_append hp, hd]
      rw [List.dropWhile_cons]
      simp only [show (('?' : Char) != '?') = false from rfl, Bool.false_eq_true, if_false]
      rw [← hd]

/-! Claim theorems. -/

/-- C1 counterexample: a request carrying a present-but-empty `Origin`
header is allowed by the gate even though the empty string matches no
entry of the allow-list, so "present implies allowed iff it matches an
entry" fails at `Origin: ""` (the JavaScript guard `!origin` also fires
on the empty string). -/
theorem corsOrigin_empty_origin_refutes_claim :
    corsOrigin (some "") = true ∧ "" ∉ allowedOrigins := by
  refine ⟨rfl, ?_⟩
  decide

/-- C1 (amended): a request with no `Origin` header, or with an empty
`Origin` value, is allowed regardless of the allow-list contents; a
request with any non-empty `Origin` value is allowed if and only if the
value exactly matches an entry of the allow-list, and denied otherwise. -/
theorem corsOrigin_gate (origins : List String) (o : String) (ho : o ≠ "") :
    corsOriginCallback origins none = true ∧
    corsOriginCallback origins (some "") = true ∧
    (corsOriginCallback origins (some o) = true ↔ o ∈ origins) ∧
    corsOrigin none = true ∧
    (corsOrigin (some o) = true ↔ o ∈ allowedOrigins) := by
  refine ⟨rfl, rfl, ?_, rfl, ?_⟩ <;>
    simp [corsOrigin, corsOriginCallback, ho, List.contains, List.elem_iff]

/-- Witness for `corsOrigin_gate` at a concrete allow-listed origin. -/
theorem corsOrigin_gate_witness :
    corsOriginCallback allowedOrigins none = true ∧
    corsOriginCallback allowedOrigins (some "") = true ∧
    (corsOriginCallback allowedOrigins (some "https://summitcards.co.uk") = true ↔
      "https://summitcards.co.uk" ∈ allowedOrigins) ∧
    corsOrigin none = true ∧
    (corsOrigin (some "https://summitcards.co.uk") = true ↔
      "https://summitcards.co.uk" ∈ allowedOrigins) :=
  corsOrigin_gate allowedOrigins "https://summitcards.co.uk" (by decide)

/-- C4: the by-id handlers call upstream at `/sets/{id}` (resp.
`/cards/{id}`) with no query string appended, and their whole trace is
independent of the inbound URL, hence of any inbound query string. -/
theorem byId_routes_drop_query (id url k : String) (o : FetchOutcome) :
    (getSetByIdHandler ⟨url, id⟩ k o).call.url = POKEMON_TCG_API ++ "/sets/" ++ id ∧
    (getCardByIdHandler ⟨url, id⟩ k o).call.url = POKEMON_TCG_API ++ "/cards/" ++ id ∧
    getSetByIdHandler ⟨url, id⟩ k o = getSetByIdHandler ⟨"", id⟩ k o ∧
    getCardByIdHandler ⟨url, id⟩ k o = getCardByIdHandler ⟨"", id⟩ k o := by
  refine ⟨?_, ?_, rfl, rfl⟩ <;>
    simp [getSetByIdHandler_call, getCardByIdHandler_call, pokemonApiRequest_url,
      String.append_assoc]

/-- C5 counterexample: with `POKEMON_TCG_API_KEY` set to the empty string
the variable is set, yet the outbound request carries no `X-Api-Key`
header at all — in particular it does not carry the header with the
configured (empty) value. -/
theorem apiKey_set_empty_refutes_claim :
    apiKeyOfEnv (some "") = "" ∧
    (pokemonApiRequest "/sets" "" (apiKeyOfEnv (some "")) (.failure "E" "m")).headers.lookup
      "X-Api-Key" = none ∧
    ¬ (pokemonApiRequest "/sets" "" (apiKeyOfEnv (some "")) (.failure "E" "m")).headers.lookup
      "X-Api-Key" = some "" := by
  refine ⟨rfl, rfl, ?_⟩
  decide

/-- C5 (amended): if `POKEMON_TCG_API_KEY` is unset or set to the empty
string, outbound requests carry no `X-Api-Key` header; if it is set to a
non-empty value, they carry an `X-Api-Key` header whose value is exactly
the configured value; and the absence of a key does not prevent the call
— the URL fetched is the same with and without a key. -/
theorem apiKey_header (e q v : String) (o : FetchOutcome) (hv : v ≠ "") :
    (pokemonApiRequest e q (apiKeyOfEnv none) o).headers.lookup "X-Api-Key" = none ∧
    (pokemonApiRequest e q (apiKeyOfEnv (some "")) o).headers.lookup "X-Api-Key" = none ∧
    (pokemonApiRequest e q (apiKeyOfEnv (some v)) o).headers.lookup "X-Api-Key" = some v ∧
    (pokemonApiRequest e q (apiKeyOfEnv (some v)) o).url
      = (pokemonApiRequest e q (apiKeyOfEnv none) o).url := by
  refine ⟨?_, ?_, ?_, ?_⟩
  · simp [pokemonApiRequest_headers, apiKeyOfEnv, List.lookup]
  · simp [pokemonApiRequest_headers, apiKeyOfEnv, List.lookup]
  · simp [pokemonApiRequest_headers, apiKeyOfEnv, hv, List.lookup]
  · rw [pokemonApiRequest_url, pokemonApiRequest_url]

/-- Witness for `apiKey_header` at a concrete non-empty key. -/
theorem apiKey_header_witness :
    (pokemonApiRequest "/sets" "" (apiKeyOfEnv none) (.failure "E" "m")).headers.lookup
      "X-Api-Key" = none ∧
    (pokemonApiRequest "/sets" "" (apiKeyOfEnv (some "")) (.failure "E" "m")).headers.lookup
      "X-Api-Key" = none ∧
    (pokemonApiRequest "/sets" "" (apiKeyOfEnv (some "secret-key")) (.failure "E" "m")).headers.lookup
      "X-Api-Key" = some "secret-key" ∧
    (pokemonApiRequest "/sets" "" (apiKeyOfEnv (some "secret-key")) (.failure "E" "m")).url
      = (pokemonApiRequest "/sets" "" (apiKeyOfEnv none) (.failure "E" "m")).url :=
  apiKey_header "/sets" "" "secret-key" (.failure "E" "m") (by decide)

/-- C7: on every exit path of `pokemonApiRequest` — success, upstream
non-success status, transport failure, abort, or body-parse failure —
the 30-second deadline timer is no longer armed when the function
settles. -/
theorem timer_always_cleared (e q k : String) (o : FetchOutcome) :
    (pokemonApiRequest e q k o).timerArmedAtEnd = false ∧
    (pokemonApiRequest e q k o).timerDelayMs = TIMEOUT_MS := by
  refine ⟨?_, pokemonApiRequest_timerDelay e q k o⟩
  rcases o with r | ⟨n, m⟩ <;> simp only [pokemonApiRequest] <;> split <;> rfl

/-- C9: an API key configured as the empty string is indistinguishable
from an unset key — the stored key is the empty string, the whole
upstream call trace coincides with the unset-key trace, and the headers
are exactly the two base headers, with no `X-Api-Key` entry at all. -/
theorem emptyKey_indistinguishable (e q : String) (o : FetchOutcome) :
    apiKeyOfEnv (some "") = apiKeyOfEnv none ∧
    pokemonApiRequest e q (apiKeyOfEnv (some "")) o = pokemonApiRequest e q (apiKeyOfEnv none) o ∧
    (pokemonApiRequest e q (apiKeyOfEnv (some "")) o).headers
      = [("Content-Type", "application/json"), ("Accept", "application/json")] := by
  refine ⟨rfl, rfl, ?_⟩
  simp [pokemonApiRequest_headers, apiKeyOfEnv]

/-- C10: the by-id upstream URL is the pure string concatenation of the
base URL, the fixed path prefix and the router-supplied id — no
re-encoding, escaping or validation — illustrated also on an id full of
characters that URL encoding would have rewritten. -/
theorem byId_pure_concatenation (id url k : String) (o : FetchOutcome) :
    (pokemonApiRequest ("/sets/" ++ id) "" k o).url = POKEMON_TCG_API ++ "/sets/" ++ id ∧
    (pokemonApiRequest ("/cards/" ++ id) "" k o).url = POKEMON_TCG_API ++ "/cards/" ++ id ∧
    (getSetByIdHandler ⟨url, id⟩ k o).call.url = POKEMON_TCG_API ++ "/sets/" ++ id ∧
    (getCardByIdHandler ⟨url, id⟩ k o).call.url = POKEMON_TCG_API ++ "/cards/" ++ id ∧
    (getCardByIdHandler ⟨"/api/cards/a%20b", "a b/c?d=%25"⟩ "" (.failure "E" "m")).call.url
      = "https://api.pokemontcg.io/v2/cards/a b/c?d=%25" := by
  refine ⟨?_, ?_, ?_, ?_, ?_⟩
  · simp [pokemonApiRequest_url, String.append_assoc]
  · simp [pokemonApiRequest_url, String.append_assoc]
  · simp [getSetByIdHandler_call, pokemonApiRequest_url, String.append_assoc]
  · simp [getCardByIdHandler_call, pokemonApiRequest_url, String.append_assoc]
  · decide

/-- C2: whenever the forwarding helper fails with message `m` — timeout,
upstream non-2xx, transport failure or body-parse failure — each route
replies with transport status 500 and body exactly
`errorBody <fixed per-route label> m`; in particular an upstream 404
still yields 500 towards the caller, with a message that contains the
upstream status code and reason phrase. -/
theorem error_normalization (req : Request) (k m st bt : String)
    (jr : Except String Json) (o : FetchOutcome)
    (herr : (pokemonApiRequest "/sets" (extractQuery req.url) k o).result = .error m) :
    (getSetsHandler req k o).response =
      { status := 500, body := .errorBody "Failed to fetch sets" m } ∧
    (getSetByIdHandler req k o).response =
      { status := 500, body := .errorBody "Failed to fetch set" m } ∧
    (getCardsHandler req k o).response =
      { status := 500, body := .errorBody "Failed to fetch cards" m } ∧
    (getCardByIdHandler req k o).response =
      { status := 500, body := .errorBody "Failed to fetch card" m } ∧
    (pokemonApiRequest "/sets" "" k (.response ⟨404, st, bt, jr⟩)).result
      = .error (upstreamErrorMessage 404 st) ∧
    (getSetsHandler req k (.response ⟨404, st, bt, jr⟩)).response
      = { status := 500, body := .errorBody "Failed to fetch sets" (upstreamErrorMessage 404 st) } ∧
    (toString 404).data <:+: (upstreamErrorMessage 404 st).data ∧
    st.data <:+: (upstreamErrorMessage 404 st).data := by
  have hany : ∀ e' q', (pokemonApiRequest e' q' k o).result = .error m := fun e' q' =>
    (pokemonApiRequest_result_congr e' q' k "/sets" (extractQuery req.url) k o).trans herr
  have h404 : ∀ e' q', (pokemonApiRequest e' q' k (.response ⟨404, st, bt, jr⟩)).result
      = .error (upstreamErrorMessage 404 st) := by
    intro e' q'
    rw [pokemonApiRequest_result]
    simp [FetchResponse.ok]
  refine ⟨getSetsHandler_response_error _ _ _ _ (hany _ _),
    getSetByIdHandler_response_error _ _ _ _ (hany _ _),
    getCardsHandler_response_error _ _ _ _ (hany _ _),
    getCardByIdHandler_response_error _ _ _ _ (hany _ _),
    h404 _ _,
    getSetsHandler_response_error _ _ _ _ (h404 _ _),
    ⟨"Pokemon TCG API error: ".data, (" ").data ++ st.data, ?_⟩,
    ⟨("Pokemon TCG API error: " ++ toString 404 ++ " ").data, [], ?_⟩⟩
  · simp [upstreamErrorMessage, String.data_append]
  · simp [upstreamErrorMessage, String.data_append]

/-- Witness for `error_normalization`: a concrete transport failure and a
concrete upstream 404. -/
theorem error_normalization_witness :
    (getSetsHandler ⟨"/api/sets", ""⟩ "" (.failure "TypeError" "fetch failed")).response =
      { status := 500, body := .errorBody "Failed to fetch sets" "fetch failed" } ∧
    (getSetByIdHandler ⟨"/api/sets", ""⟩ "" (.failure "TypeError" "fetch failed")).response =
      { status := 500, body := .errorBody "Failed to fetch set" "fetch failed" } ∧
    (getCardsHandler ⟨"/api/sets", ""⟩ "" (.failure "TypeError" "fetch failed")).response =
      { status := 500, body := .errorBody "Failed to fetch cards" "fetch failed" } ∧
    (getCardByIdHandler ⟨"/api/sets", ""⟩ "" (.failure "TypeError" "fetch failed")).response =
      { status := 500, body := .errorBody "Failed to fetch card" "fetch failed" } ∧
    (pokemonApiRequest "/sets" "" ""
        (.response ⟨404, "Not Found", "err body", .error "parse"⟩)).result
      = .error (upstreamErrorMessage 404 "Not Found") ∧
    (getSetsHandler ⟨"/api/sets", ""⟩ ""
        (.response ⟨404, "Not Found", "err body", .error "parse"⟩)).response
      = { status := 500,
          body := .errorBody "Failed to fetch sets" (upstreamErrorMessage 404 "Not Found") } ∧
    (toString 404).data <:+: (upstreamErrorMessage 404 "Not Found").data ∧
    ("Not Found" : String).data <:+: (upstreamErrorMessage 404 "Not Found").data :=
  error_normalization ⟨"/api/sets", ""⟩ "" "fetch failed" "Not Found" "err body"
    (.error "parse") (.failure "TypeError" "fetch failed") (by decide)

/-- C3: on the collection routes the inbound raw query string is appended
to the upstream URL unchanged, byte for byte — the upstream URL is
exactly `base ++ path ++ queryString`, and when the inbound URL has no
query string the upstream URL is exactly `base ++ path`. -/
theorem collection_query_forwarding (qs k pid : String) (o : FetchOutcome)
    (hqs : qs.data = [] ∨ qs.data.head? = some '?') :
    (getCardsHandler ⟨"/api/cards" ++ qs, pid⟩ k o).call.url
      = POKEMON_TCG_API ++ "/cards" ++ qs ∧
    (getSetsHandler ⟨"/api/sets" ++ qs, pid⟩ k o).call.url
      = POKEMON_TCG_API ++ "/sets" ++ qs ∧
    (getCardsHandler ⟨"/api/cards", pid⟩ k o).call.url = POKEMON_TCG_API ++ "/cards" ∧
    (getSetsHandler ⟨"/api/sets", pid⟩ k o).call.url = POKEMON_TCG_API ++ "/sets" := by
  have hc : extractQuery ("/api/cards" ++ qs) = qs := extractQuery_append _ _ (by decide) hqs
  have hs : extractQuery ("/api/sets" ++ qs) = qs := extractQuery_append _ _ (by decide) hqs
  refine ⟨?_, ?_, ?_, ?_⟩
  · simp [getCardsHandler_call, pokemonApiRequest_url, hc]
  · simp [getSetsHandler_call, pokemonApiRequest_url, hs]
  · simp [getCardsHandler_call, pokemonApiRequest_url,
      show extractQuery "/api/cards" = "" from by decide]
  · simp [getSetsHandler_call, pokemonApiRequest_url,
      show extractQuery "/api/sets" = "" from by decide]

/-- Witness for `collection_query_forwarding` at the spec's example query
string `?q=name:pikachu`. -/
theorem collection_query_forwarding_witness :
    (getCardsHandler ⟨"/api/cards" ++ "?q=name:pikachu", ""⟩ "" (.failure "E" "m")).call.url
      = POKEMON_TCG_API ++ "/cards" ++ "?q=name:pikachu" ∧
    (getSetsHandler ⟨"/api/sets" ++ "?q=name:pikachu", ""⟩ "" (.failure "E" "m")).call.url
      = POKEMON_TCG_API ++ "/sets" ++ "?q=name:pikachu" ∧
    (getCardsHandler ⟨"/api/cards", ""⟩ "" (.failure "E" "m")).call.url
      = POKEMON_TCG_API ++ "/cards" ∧
    (getSetsHandler ⟨"/api/sets", ""⟩ "" (.failure "E" "m")).call.url
      = POKEMON_TCG_API ++ "/sets" :=
  collection_query_forwarding "?q=name:pikachu" "" "" (.failure "E" "m") (by decide)

/-- C6: the deadline timer is armed for exactly 30000 milliseconds; when
the upstream takes longer than that, the in-flight call is aborted, the
helper fails with the timeout-specific message, and the caller receives
a 500 response whose error message indicates a timeout. -/
theorem timeout_behaviour (upstreamMs : Nat) (r : FetchOutcome) (req : Request) (k : String)
    (hlate : TIMEOUT_MS < upstreamMs) :
    TIMEOUT_MS = 30000 ∧
    fetchWithDeadline upstreamMs r = .failure "AbortError" "This operation was aborted" ∧
    (pokemonApiRequest "/sets" (extractQuery req.url) k (fetchWithDeadline upstreamMs r)).result
      = .error timeoutMessage ∧
    (pokemonApiRequest "/sets" (extractQuery req.url) k
        (fetchWithDeadline upstreamMs r)).timerDelayMs = 30000 ∧
    (getSetsHandler req k (fetchWithDeadline upstreamMs r)).response
      = { status := 500, body := .errorBody "Failed to fetch sets" timeoutMessage } ∧
    ("timeout" : String).data <:+: timeoutMessage.data := by
  have habort : fetchWithDeadline upstreamMs r
      = .failure "AbortError" "This operation was aborted" := by
    unfold fetchWithDeadline
    rw [if_pos hlate]
  have hres : (pokemonApiRequest "/sets" (extractQuery req.url) k
      (fetchWithDeadline upstreamMs r)).result = .error timeoutMessage := by
    rw [habort, pokemonApiRequest_result]
    simp
  refine ⟨rfl, habort, hres, pokemonApiRequest_timerDelay _ _ _ _,
    getSetsHandler_response_error _ _ _ _ hres, ?_⟩
  exact ⟨"Request ".data, (" - Pokemon TCG API took too long to respond").data, by decide⟩

/-- Witness for `timeout_behaviour`: the upstream answers after 30001
milliseconds. -/
theorem timeout_behaviour_witness :
    TIMEOUT_MS = 30000 ∧
    fetchWithDeadline 30001 (.response ⟨200, "OK", "body", .ok "data"⟩)
      = .failure "AbortError" "This operation was aborted" ∧
    (pokemonApiRequest "/sets" (extractQuery ("/api/sets" : String)) ""
        (fetchWithDeadline 30001 (.response ⟨200, "OK", "body", .ok "data"⟩))).result
      = .error timeoutMessage ∧
    (pokemonApiRequest "/sets" (extractQuery ("/api/sets" : String)) ""
        (fetchWithDeadline 30001 (.response ⟨200, "OK", "body", .ok "data"⟩))).timerDelayMs
      = 30000 ∧
    (getSetsHandler ⟨"/api/sets", ""⟩ ""
        (fetchWithDeadline 30001 (.response ⟨200, "OK", "body", .ok "data"⟩))).response
      = { status := 500, body := .errorBody "Failed to fetch sets" timeoutMessage } ∧
    ("timeout" : String).data <:+: timeoutMessage.data :=
  timeout_behaviour 30001 (.response ⟨200, "OK", "body", .ok "data"⟩) ⟨"/api/sets", ""⟩ ""
    (by decide)

/-! Calendar arithmetic lemmas for the health-endpoint timestamp. -/

theorem daysInYear_ge (y : Nat) : 365 ≤ daysInYear y := by
  unfold daysInYear
  split <;> omega

theorem daysInYear_eq_sum (y : Nat) : daysInYear y = (monthLengths (isLeapYear y)).sum := by
  unfold daysInYear
  cases h : isLeapYear y <;> simp [h, monthLengths]

theorem daysToYearStart_succ (y : Nat) (hy : 1970 ≤ y) :
    daysToYearStart (y + 1) = daysToYearStart y + daysInYear y := by
  have h1 : y + 1 - 1970 = (y - 1970) + 1 := by omega
  unfold daysToYearStart
  rw [h1, daysToYearStartAux]
  have h2 : 1970 + (y - 1970) = y := by omega
  rw [h2]

theorem daysToYearStartAux_mono (k j : Nat) (h : k ≤ j) :
    daysToYearStartAux k ≤ daysToYearStartAux j := by
  induction j with
  | zero =>
    have hk : k = 0 := by omega
    subst hk
    exact Nat.le_refl _
  | succ j ih =>
    rcases Nat.lt_or_ge k (j + 1) with hk | hk
    · have h1 := ih (by omega)
      have h2 : daysToYearStartAux (j + 1) = daysToYearStartAux j + daysInYear (1970 + j) := by
        rw [daysToYearStartAux]
      omega
    · have hk1 : k = j + 1 := by omega
      subst hk1
      exact Nat.le_refl _

theorem daysToYearStart_mono (y1 y2 : Nat) (h : y1 ≤ y2) :
    daysToYearStart y1 ≤ daysToYearStart y2 := by
  unfold daysToYearStart
  exact daysToYearStartAux_mono _ _ (by omega)

theorem daysToYearStartAux_ge (k : Nat) : 365 * k ≤ daysToYearStartAux k := by
  induction k with
  | zero => simp [daysToYearStartAux]
  | succ k ih =>
    rw [daysToYearStartAux]
    have := daysInYear_ge (1970 + k)
    omega

theorem yearWalkAux_spec (fuel : Nat) : ∀ y d : Nat, d < fuel → 1970 ≤ y →
    daysToYearStart (yearWalkAux fuel y d).1 + (yearWalkAux fuel y d).2
        = daysToYearStart y + d ∧
    (yearWalkAux fuel y d).2 < daysInYear (yearWalkAux fuel y d).1 ∧
    1970 ≤ (yearWalkAux fuel y d).1 := by
  induction fuel with
  | zero => intro y d hd hy; omega
  | succ fuel ih =>
    intro y d hd hy
    by_cases h : d < daysInYear y
    · rw [yearWalkAux, if_pos h]
      exact ⟨rfl, h, hy⟩
    · rw [yearWalkAux, if_neg h]
      have h365 := daysInYear_ge y
      have hd' : d - daysInYear y < fuel := by omega
      have hrec := ih (y + 1) (d - daysInYear y) hd' (by omega)
      refine ⟨?_, hrec.2.1, hrec.2.2⟩
      rw [hrec.1, daysToYearStart_succ y hy]
      omega

theorem civilFromDays_spec (days : Nat) :
    daysToYearStart (civilFromDays days).1 + (civilFromDays days).2 = days ∧
    (civilFromDays days).2 < daysInYear (civilFromDays days).1 ∧
    1970 ≤ (civilFromDays days).1 := by
  obtain ⟨ha, hb, hc⟩ := yearWalkAux_spec (days + 1) 1970 days (by omega) (by omega)
  have h0 : daysToYearStart 1970 = 0 := rfl
  unfold civilFromDays
  exact ⟨by omega, hb, hc⟩

theorem civilFromDays_year_lt (days : Nat) (h : days < 2930950) :
    (civilFromDays days).1 < 10000 := by
  by_contra hge
  have hge' : 10000 ≤ (civilFromDays days).1 := by omega
  have h1 := (civilFromDays_spec days).1
  have h2 : daysToYearStart 10000 ≤ daysToYearStart (civilFromDays days).1 :=
    daysToYearStart_mono _ _ hge'
  have h3 : 365 * 8030 ≤ daysToYearStartAux 8030 := daysToYearStartAux_ge 8030
  have h4 : daysToYearStart 10000 = daysToYearStartAux 8030 := rfl
  omega

set_option maxRecDepth 8192 in
theorem monthWalk_spec_false : ∀ d : Nat, d < 365 →
    (monthWalk (monthLengths false) d).1 < 12 ∧
    (monthWalk (monthLengths false) d).2 < (monthLengths false).getD
      (monthWalk (monthLengths false) d).1 0 ∧
    sumFirst (monthLengths false) (monthWalk (monthLengths false) d).1
        + (monthWalk (monthLengths false) d).2 = d := by
  decide

set_option maxRecDepth 8192 in
theorem monthWalk_spec_true : ∀ d : Nat, d < 366 →
    (monthWalk (monthLengths true) d).1 < 12 ∧
    (monthWalk (monthLengths true) d).2 < (monthLengths true).getD
      (monthWalk (monthLengths true) d).1 0 ∧
    sumFirst (monthLengths true) (monthWalk (monthLengths true) d).1
        + (monthWalk (monthLengths true) d).2 = d := by
  decide

theorem monthWalk_spec (leap : Bool) (d : Nat) (hd : d < (monthLengths leap).sum) :
    (monthWalk (monthLengths leap) d).1 < 12 ∧
    (monthWalk (monthLengths leap) d).2 < (monthLengths leap).getD
      (monthWalk (monthLengths leap) d).1 0 ∧
    sumFirst (monthLengths leap) (monthWalk (monthLengths leap) d).1
        + (monthWalk (monthLengths leap) d).2 = d := by
  cases leap
  · exact monthWalk_spec_false d (by simpa [monthLengths] using hd)
  · exact monthWalk_spec_true d (by simpa [monthLengths] using hd)

theorem isoFields_eq (t : Nat) : isoFields t =
    { year := (civilFromDays (t / 86400000)).1,
      month := (monthWalk (monthLengths (isLeapYear (civilFromDays (t / 86400000)).1))
        (civilFromDays (t / 86400000)).2).1 + 1,
      day := (monthWalk (monthLengths (isLeapYear (civilFromDays (t / 86400000)).1))
        (civilFromDays (t / 86400000)).2).2 + 1,
      hour := t / 3600000 % 24, minute := t / 60000 % 60,
      second := t / 1000 % 60, millis := t % 1000 } := rfl

theorem fieldsToMs_isoFields (t : Nat) : fieldsToMs (isoFields t) = t := by
  rw [isoFields_eq]
  obtain ⟨ha, hb, hc⟩ := civilFromDays_spec (t / 86400000)
  have hsum : (civilFromDays (t / 86400000)).2
      < (monthLengths (isLeapYear (civilFromDays (t / 86400000)).1)).sum := by
    rw [← daysInYear_eq_sum]
    exact hb
  obtain ⟨hm, hd, hms⟩ := monthWalk_spec (isLeapYear (civilFromDays (t / 86400000)).1)
    (civilFromDays (t / 86400000)).2 hsum
  unfold fieldsToMs
  simp only [Nat.add_sub_cancel]
  omega

theorem isoFields_bounds (t : Nat) (ht : t < YEAR_LIMIT_MS) :
    1970 ≤ (isoFields t).year ∧ (isoFields t).year < 10000 ∧
    1 ≤ (isoFields t).month ∧ (isoFields t).month ≤ 12 ∧
    1 ≤ (isoFields t).day ∧
    (isoFields t).day ≤ (monthLengths (isLeapYear (isoFields t).year)).getD
      ((isoFields t).month - 1) 0 ∧
    (isoFields t).hour ≤ 23 ∧ (isoFields t).minute ≤ 59 ∧
    (isoFields t).second ≤ 59 ∧ (isoFields t).millis ≤ 999 := by
  have hdays : t / 86400000 < 2930950 := by
    simp only [YEAR_LIMIT_MS] at ht
    omega
  obtain ⟨ha, hb, hc⟩ := civilFromDays_spec (t / 86400000)
  have hylt := civilFromDays_year_lt (t / 86400000) hdays
  have hsum : (civilFromDays (t / 86400000)).2
      < (monthLengths (isLeapYear (civilFromDays (t / 86400000)).1)).sum := by
    rw [← daysInYear_eq_sum]
    exact hb
  obtain ⟨hm, hd, hms⟩ := monthWalk_spec (isLeapYear (civilFromDays (t / 86400000)).1)
    (civilFromDays (t / 86400000)).2 hsum
  rw [isoFields_eq]
  simp only [Nat.add_sub_cancel]
  refine ⟨hc, hylt, by omega, by omega, by omega, by omega, by omega, by omega, by omega,
    by omega⟩

/-! Decimal digit rendering lemmas. -/

theorem padDigits_length (w n : Nat) : (padDigits w n).length = w := by
  induction w generalizing n with
  | zero => rfl
  | succ w ih => simp [padDigits, ih]

theorem digitVal_decDigit (n : Nat) : digitVal (decDigit n) = n % 10 := by
  unfold decDigit
  have h : n % 10 < 10 := Nat.mod_lt _ (by omega)
  split <;> simp_all [digitVal] <;> omega

theorem decDigit_isDigit (n : Nat) : (decDigit n).isDigit = true := by
  unfold decDigit
  split
  all_goals decide

theorem decValue_append_one (l : List Char) (c : Char) :
    decValue (l ++ [c]) = decValue l * 10 + digitVal c := by
  simp [decValue, List.foldl_append]

theorem decValue_padDigits (w n : Nat) : decValue (padDigits w n) = n % 10 ^ w := by
  induction w generalizing n with
  | zero => simp [padDigits, decValue, Nat.mod_one]
  | succ w ih =>
    rw [padDigits, decValue_append_one, ih, digitVal_decDigit, pow_succ']
    rw [Nat.mod_mul]
    omega

theorem pad2_eq (n : Nat) : padDigits 2 n = [decDigit (n / 10), decDigit n] := by
  simp [padDigits]

theorem pad3_eq (n : Nat) :
    padDigits 3 n = [decDigit (n / 100), decDigit (n / 10), decDigit n] := by
  simp [padDigits, Nat.div_div_eq_div_mul]

theorem pad4_eq (n : Nat) :
    padDigits 4 n = [decDigit (n / 1000), decDigit (n / 100), decDigit (n / 10), decDigit n] := by
  simp [padDigits, Nat.div_div_eq_div_mul]

theorem decValue_pad2 (n : Nat) (h : n < 100) :
    decValue [decDigit (n / 10), decDigit n] = n := by
  rw [← pad2_eq, decValue_padDigits]
  omega

theorem decValue_pad3 (n : Nat) (h : n < 1000) :
    decValue [decDigit (n / 100), decDigit (n / 10), decDigit n] = n := by
  rw [← pad3_eq, decValue_padDigits]
  have : (10 : Nat) ^ 3 = 1000 := by norm_num
  omega

theorem decValue_pad4 (n : Nat) (h : n < 10000) :
    decValue [decDigit (n / 1000), decDigit (n / 100), decDigit (n / 10), decDigit n] = n := by
  rw [← pad4_eq, decValue_padDigits]
  have : (10 : Nat) ^ 4 = 10000 := by norm_num
  omega

theorem parse_renderFields (f : DateFields)
    (hy1 : 1970 ≤ f.year) (hy2 : f.year < 10000)
    (hmo1 : 1 ≤ f.month) (hmo2 : f.month ≤ 12)
    (hd1 : 1 ≤ f.day)
    (hd2 : f.day ≤ (monthLengths (isLeapYear f.year)).getD (f.month - 1) 0)
    (hh : f.hour ≤ 23) (hmi : f.minute ≤ 59) (hs : f.second ≤ 59) (hms : f.millis ≤ 999) :
    parseISO8601 (String.mk (renderFields f)) = some (fieldsToMs f) := by
  have e1 : decValue [decDigit (f.year / 1000), decDigit (f.year / 100),
      decDigit (f.year / 10), decDigit f.year] = f.year := decValue_pad4 _ (by omega)
  have e2 : decValue [decDigit (f.month / 10), decDigit f.month] = f.month :=
    decValue_pad2 _ (by omega)
  have e3 : decValue [decDigit (f.day / 10), decDigit f.day] = f.day := by
    refine decValue_pad2 _ ?_
    have : (monthLengths (isLeapYear f.year)).getD (f.month - 1) 0 ≤ 31 := by
      have h12 : f.month - 1 < 12 := by omega
      cases hL : isLeapYear f.year <;>
        (simp only [monthLengths, hL]; interval_cases (f.month - 1) <;> simp)
    omega
  have e4 : decValue [decDigit (f.hour / 10), decDigit f.hour] = f.hour :=
    decValue_pad2 _ (by omega)
  have e5 : decValue [decDigit (f.minute / 10), decDigit f.minute] = f.minute :=
    decValue_pad2 _ (by omega)
  have e6 : decValue [decDigit (f.second / 10), decDigit f.second] = f.second :=
    decValue_pad2 _ (by omega)
  have e7 : decValue [decDigit (f.millis / 100), decDigit (f.millis / 10),
      decDigit f.millis] = f.millis := decValue_pad3 _ (by omega)
  unfold renderFields
  rw [pad4_eq, pad2_eq, pad2_eq, pad2_eq, pad2_eq, pad2_eq, pad3_eq]
  simp only [List.cons_append, List.nil_append]
  simp only [parseISO8601]
  simp only [List.all_cons, List.all_nil, decDigit_isDigit, Bool.and_true, Bool.and_self,
    eq_self_iff_true, true_and, and_true, if_true]
  simp only [e1, e2, e3, e4, e5, e6, e7]
  rw [if_pos]
  exact ⟨hy1, hmo1, hmo2, hd1, hd2, hh, hmi, hs⟩

theorem parseISO8601_toISOString (t : Nat) (ht : t < YEAR_LIMIT_MS) :
    parseISO8601 (toISOString t) = some t := by
  obtain ⟨h1, h2, h3, h4, h5, h6, h7, h8, h9, h10⟩ := isoFields_bounds t ht
  have hp := parse_renderFields (isoFields t) h1 h2 h3 h4 h5 h6 h7 h8 h9 h10
  unfold toISOString isoChars
  rw [hp, fieldsToMs_isoFields]

theorem toISOString_inj (t1 t2 : Nat) (h1 : t1 < YEAR_LIMIT_MS) (h2 : t2 < YEAR_LIMIT_MS)
    (he : toISOString t1 = toISOString t2) : t1 = t2 := by
  have p1 := parseISO8601_toISOString t1 h1
  have p2 := parseISO8601_toISOString t2 h2
  rw [he, p2] at p1
  exact (Option.some.inj p1).symm

/-- C8 counterexample: two successive calls to `GET /health` — two
distinct instants, here 0 and 500 microseconds after the epoch — that
fall inside the same clock millisecond receive byte-identical
timestamps, so the timestamps of two successive calls are not always
distinct. -/
theorem health_same_millisecond_refutes_claim :
    (0 : Nat) ≠ 500 ∧
    dateNowMs 0 = dateNowMs 500 ∧
    healthTimestampAtMicro 0 = healthTimestampAtMicro 500 ∧
    healthResponseAtMicro 0 = healthResponseAtMicro 500 := by
  refine ⟨by decide, rfl, rfl, rfl⟩

/-- C8 (amended): every `GET /health` request returns status 200 with
body status `"healthy"` and a timestamp that is a valid ISO-8601
date-time — it parses back to exactly the millisecond clock reading of
the call; and the timestamps of two calls are distinct if and only if
their millisecond clock readings are distinct, so successive calls
within the same millisecond receive identical timestamps and successive
calls at different milliseconds receive distinct ones.  (Stated for
clock readings whose year fits the four-digit field, i.e. up to the year
9994.) -/
theorem health_endpoint (t1 t2 : Nat) (h1 : t1 < YEAR_LIMIT_MS) (h2 : t2 < YEAR_LIMIT_MS) :
    (healthHandler t1).status = 200 ∧
    (healthHandler t1).body = .healthBody "healthy" (toISOString t1) ∧
    parseISO8601 (toISOString t1) = some t1 ∧
    (toISOString t1 = toISOString t2 ↔ t1 = t2) := by
  refine ⟨rfl, rfl, parseISO8601_toISOString t1 h1, ?_, ?_⟩
  · exact toISOString_inj t1 t2 h1 h2
  · intro h
    rw [h]

/-- Witness for `health_endpoint` at the epoch and one millisecond after
it. -/
theorem health_endpoint_witness :
    (healthHandler 0).status = 200 ∧
    (healthHandler 0).body = .healthBody "healthy" (toISOString 0) ∧
    parseISO8601 (toISOString 0) = some 0 ∧
    (toISOString 0 = toISOString 1 ↔ (0 : Nat) = 1) :=
  health_endpoint 0 1 (by decide) (by decide)
